import Mathlib

/-!
Shallow embedding of the Fatherhood Initiative backend's authentication and
signup routes (`src/routes/auth.ts`, `src/routes/fatherhood` router,
`src/middleware/auth.js`), together with proofs about them.

External collaborators (bcrypt, the JWT library, the Supabase datastore
client) are modelled as parameters or as explicit outcome values threaded
into each handler, mirroring exactly where the source consults them.
-/

set_option linter.unusedVariables false

namespace Express2

/-- An error object returned by the datastore client (`{ code, ... }`). -/
structure DbError where
  code : String
  deriving Repr, DecidableEq

/-- A datastore operation attempted by a handler, in order of issue.
Tracking these makes "no datastore read/write happened" provable. -/
inductive DbOp where
  /-- `supabaseAdmin.from('admin_users').select('*').ilike('email', pat).single()` -/
  | adminSelect (emailPat : String)
  /-- an `update(...)` on `admin_users` filtered by `eq('id', id)` -/
  | adminUpdate (id : Nat)
  /-- `supabase.from('fatherhood_signups').select('id').ilike('email', e).maybeSingle()` -/
  | signupSelect (email : String)
  /-- `supabase.from('fatherhood_signups').insert([...])` -/
  | signupInsert (email : String)
  /-- `supabaseAdmin.from('fatherhood_signups').update({ status }).eq('id', id)` -/
  | signupUpdate (id : String)
  deriving Repr, DecidableEq

/-- The `user` object included in successful auth responses. -/
structure UserInfo where
  id : Nat
  email : String
  name : String
  firstLogin : Bool
  deriving Repr, DecidableEq

/-- Row of the `fatherhood_signups` table (fields the handlers touch). -/
structure SignupRec where
  full_name : String
  email : String
  phone_number : String
  address : Option String := none
  zip_code : Option String := none
  number_of_children : Option Nat := none
  children_ages : Option String := none
  referral_source : Option String := none
  interests : Option String := none
  availability : Option String := none
  additional_notes : Option String := none
  consent_to_contact : Bool := true
  consent_to_sms : Bool := false
  status : String := "pending"
  deriving Repr, DecidableEq

/-- A JSON response: HTTP status code plus the body fields any of the
modelled handlers ever set.  A field left at its default is absent from
the corresponding JSON body. -/
structure ApiResponse where
  status : Nat
  error : Option String := none
  message : Option String := none
  success : Bool := false
  token : Option String := none
  requiresPasswordSetup : Bool := false
  emailEcho : Option String := none
  nameEcho : Option String := none
  user : Option UserInfo := none
  validStatuses : Option (List String) := none
  data : Option SignupRec := none
  deriving Repr, DecidableEq

/-- Row of the `admin_users` table (fields the handlers touch).
`password_hash = none` models a SQL NULL hash. -/
structure AdminUser where
  id : Nat
  email : String
  name : String
  password_hash : Option String
  is_active : Bool
  first_login : Bool
  deriving Repr, DecidableEq

/-- Server configuration: whether `supabaseAdmin` is non-null
(SUPABASE_SERVICE_KEY set) and the value of `process.env.JWT_SECRET`. -/
structure AuthConfig where
  hasSupabaseAdmin : Bool
  jwtSecret : Option String
  deriving Repr, DecidableEq

/-- External cryptographic collaborators: `bcrypt.compare` and `jwt.sign`
(the latter applied to the three identity claims and the secret). -/
structure AuthEnv where
  compare : String → String → Bool
  sign : Nat → String → String → String → String

/-- `toLowerCase()`, written on the underlying character list so that the
kernel can evaluate it on literals. -/
def lowerStr (s : String) : String :=
  ⟨s.data.map Char.toLower⟩

/-- `trim()`, written on the underlying character list. -/
def trimStr (s : String) : String :=
  ⟨((s.data.dropWhile Char.isWhitespace).reverse.dropWhile Char.isWhitespace).reverse⟩

/-- JavaScript falsiness of an optional string body field:
`undefined`/missing or the empty string. -/
def falsy : Option String → Bool
  | none => true
  | some s => s.data.isEmpty

/-- `supabaseAdmin.from('admin_users').select('*').ilike('email', pat).single()`.
`ilike` without wildcard characters is case-insensitive equality on the
stored email; `.single()` yields an error (hence `none` data) unless
exactly one row matches. -/
def findAdminByEmail (db : List AdminUser) (pat : String) : Option AdminUser :=
  match db.filter (fun u => lowerStr u.email == lowerStr pat) with
  | [u] => some u
  | _ => none

def validationFailedResp : ApiResponse :=
  { status := 400, error := some "Validation failed",
    message := some "Email and password are required" }

def serviceUnavailableResp : ApiResponse :=
  { status := 503, error := some "Service unavailable",
    message := some "Admin authentication service is not configured" }

def invalidCredentialsResp : ApiResponse :=
  { status := 401, error := some "Invalid credentials",
    message := some "Invalid email or password" }

def accountDisabledResp : ApiResponse :=
  { status := 403, error := some "Account disabled",
    message := some "Your account has been disabled. Please contact an administrator." }

def serverConfigErrorResp : ApiResponse :=
  { status := 500, error := some "Server configuration error",
    message := some "Authentication system not properly configured" }

/-- The 403 "Password not set" response for admin `u`. -/
def passwordNotSetResp (u : AdminUser) : ApiResponse :=
  { status := 403, error := some "Password not set",
    message := some "Please set your password first",
    requiresPasswordSetup := true,
    emailEcho := some u.email, nameEcho := some u.name }

/-- `POST /api/auth/login`.  `updateError` is the (ignored) result of the
timestamp `update` issued after token issuance; the source never inspects
it.  Returns the response and the datastore operations attempted. -/
def login (cfg : AuthConfig) (env : AuthEnv) (db : List AdminUser)
    (updateError : Option DbError) (email password : Option String) :
    ApiResponse × List DbOp :=
  if falsy email || falsy password then (validationFailedResp, [])
  else if !cfg.hasSupabaseAdmin then (serviceUnavailableResp, [])
  else
    let pat := lowerStr (trimStr (email.getD ""))
    match findAdminByEmail db pat with
    | none => (invalidCredentialsResp, [DbOp.adminSelect pat])
    | some user =>
      if !user.is_active then (accountDisabledResp, [DbOp.adminSelect pat])
      else
        match user.password_hash with
        | none => (passwordNotSetResp user, [DbOp.adminSelect pat])
        | some hash =>
          if !env.compare (password.getD "") hash then
            (invalidCredentialsResp, [DbOp.adminSelect pat])
          else
            match cfg.jwtSecret with
            | none => (serverConfigErrorResp, [DbOp.adminSelect pat])
            | some secret =>
              let token := env.sign user.id user.email user.name secret
              ({ status := 200, success := true, message := some "Login successful",
                 token := some token,
                 user := some { id := user.id, email := user.email, name := user.name,
                                firstLogin := user.first_login } },
               [DbOp.adminSelect pat, DbOp.adminUpdate user.id])

/-- A JavaScript line terminator, which `.` in a regular expression
without the `s` flag never matches. -/
def isLineTerm (c : Char) : Bool :=
  c = '\n' || c = '\r' || c = '\u2028' || c = '\u2029'

/-- `/^(?=.*[a-z])(?=.*[A-Z])(?=.*\d).{8,}$/.test(password)`.
Because `.{8,}` must span the whole string, the test succeeds exactly when
the string has no line terminator, has at least 8 characters, and contains
a lowercase ASCII letter, an uppercase ASCII letter, and a digit. -/
def passwordRegexTest (pw : String) : Bool :=
  decide (8 ≤ pw.data.length)
    && pw.data.all (fun c => !isLineTerm c)
    && pw.data.any (fun c => 'a' ≤ c && c ≤ 'z')
    && pw.data.any (fun c => 'A' ≤ c && c ≤ 'Z')
    && pw.data.any (fun c => '0' ≤ c && c ≤ '9')

def passwordRequirementsResp : ApiResponse :=
  { status := 400, error := some "Password requirements not met",
    message := some "Password must be at least 8 characters with at least one uppercase letter, one lowercase letter, and one number" }

def userNotFoundResp : ApiResponse :=
  { status := 404, error := some "User not found",
    message := some "No account found with this email address" }

def setupServerErrorResp : ApiResponse :=
  { status := 500, error := some "Server error",
    message := some "Failed to set password. Please try again." }

/-- `POST /api/auth/setup-password`.  `hashUpdateError` is the result of the
`update` writing the new hash (a non-null error is re-thrown and caught,
producing the 500 response); `tsUpdateError` is the (ignored) result of the
final timestamp `update`. -/
def setupPassword (cfg : AuthConfig) (env : AuthEnv) (db : List AdminUser)
    (hashUpdateError : Option DbError) (tsUpdateError : Option DbError)
    (email password : Option String) : ApiResponse × List DbOp :=
  if falsy email || falsy password then (validationFailedResp, [])
  else if !passwordRegexTest (password.getD "") then (passwordRequirementsResp, [])
  else if !cfg.hasSupabaseAdmin then (serviceUnavailableResp, [])
  else
    let pat := lowerStr (trimStr (email.getD ""))
    match findAdminByEmail db pat with
    | none => (userNotFoundResp, [DbOp.adminSelect pat])
    | some user =>
      if !user.is_active then (accountDisabledResp, [DbOp.adminSelect pat])
      else
        match hashUpdateError with
        | some _ => (setupServerErrorResp, [DbOp.adminSelect pat, DbOp.adminUpdate user.id])
        | none =>
          match cfg.jwtSecret with
          | none => (serverConfigErrorResp, [DbOp.adminSelect pat, DbOp.adminUpdate user.id])
          | some secret =>
            let token := env.sign user.id user.email user.name secret
            ({ status := 200, success := true, message := some "Password set successfully",
               token := some token,
               user := some { id := user.id, email := user.email, name := user.name,
                              firstLogin := false } },
             [DbOp.adminSelect pat, DbOp.adminUpdate user.id, DbOp.adminUpdate user.id])

/-! ### Public signup submission (fatherhood router) -/

/-- Body of a `POST /api/fatherhood/signup` request, after the
field-validation middleware has accepted it. -/
structure SignupBody where
  full_name : String
  email : String
  phone_number : String
  address : Option String := none
  zip_code : Option String := none
  number_of_children : Option Nat := none
  children_ages : Option String := none
  referral_source : Option String := none
  interests : Option String := none
  availability : Option String := none
  additional_notes : Option String := none
  consent_to_contact : Option Bool := none
  consent_to_sms : Option Bool := none
  deriving Repr, DecidableEq

/-- `x || null` on an optional string field (an empty string is falsy). -/
def strOrNull : Option String → Option String
  | some "" => none
  | x => x

/-- `x || null` on an optional numeric field (0 is falsy). -/
def natOrNull : Option Nat → Option Nat
  | some 0 => none
  | x => x

/-- The row built by the insert: email lowercased, status forced to
`pending`, `consent_to_contact !== false`, `consent_to_sms || false`. -/
def mkSignupRecord (b : SignupBody) : SignupRec :=
  { full_name := b.full_name
    email := lowerStr b.email
    phone_number := b.phone_number
    address := strOrNull b.address
    zip_code := strOrNull b.zip_code
    number_of_children := natOrNull b.number_of_children
    children_ages := strOrNull b.children_ages
    referral_source := strOrNull b.referral_source
    interests := strOrNull b.interests
    availability := strOrNull b.availability
    additional_notes := strOrNull b.additional_notes
    consent_to_contact := b.consent_to_contact != some false
    consent_to_sms := b.consent_to_sms == some true
    status := "pending" }

/-- `.ilike('email', e).maybeSingle()` on `fatherhood_signups`: `none`
when no row matches, and also when several match (`maybeSingle` then
reports an error, which the handler logs and ignores, leaving `existing`
null). -/
def findExistingSignup (db : List SignupRec) (email : String) : Option SignupRec :=
  match db.filter (fun r => lowerStr r.email == lowerStr email) with
  | [r] => some r
  | _ => none

/-- The datastore's authoritative unique-email constraint: inserting a row
whose email (case-insensitively) collides with a stored row fails with
PostgreSQL error code 23505. -/
def dbInsertOutcome (db : List SignupRec) (r : SignupRec) : Except DbError SignupRec :=
  if db.any (fun x => lowerStr x.email == lowerStr r.email) then Except.error { code := "23505" }
  else Except.ok r

def duplicatePrecheckResp : ApiResponse :=
  { status := 409, error := some "Email already registered",
    message := some "This email is already signed up for the Fatherhood Initiative. If you need to update your information, please contact fatherhood@manupinc.org" }

def duplicateConstraintResp : ApiResponse :=
  { status := 409, error := some "Email already registered",
    message := some "This email is already signed up." }

def insertFailedResp : ApiResponse :=
  { status := 500, error := some "Failed to save signup",
    message := some "We couldn't process your signup. Please try again or contact fatherhood@manupinc.org" }

/-- The `POST /api/fatherhood/signup` handler body (after the rate limiter
and validation middleware).  `dbCheck` is the table snapshot read by the
duplicate pre-check; `insertResult` is the outcome the datastore returns
for the subsequent insert. -/
def signupHandler (dbCheck : List SignupRec) (insertResult : Except DbError SignupRec)
    (body : SignupBody) : ApiResponse × List DbOp :=
  match findExistingSignup dbCheck body.email with
  | some _ => (duplicatePrecheckResp, [DbOp.signupSelect body.email])
  | none =>
    let ops := [DbOp.signupSelect body.email, DbOp.signupInsert (lowerStr body.email)]
    match insertResult with
    | Except.error e =>
      if e.code == "23505" then (duplicateConstraintResp, ops)
      else (insertFailedResp, ops)
    | Except.ok r =>
      ({ status := 201, success := true,
         message := some "Thank you for signing up for the Fatherhood Initiative!",
         data := some r }, ops)

/-! ### Signup rate limiter -/

/-- `windowMs: 60 * 60 * 1000` from the `signupLimiter` configuration. -/
def signupWindowMs : Nat := 60 * 60 * 1000

/-- `max: 5` from the `signupLimiter` configuration. -/
def signupMax : Nat := 5

/-- The 429 body configured on `signupLimiter`. -/
def tooManyRequestsResp : ApiResponse :=
  { status := 429, error := some "Too many signup attempts",
    message := some "Too many signup attempts from this IP, please try again later." }

/-- Whether accepted time `s` lies in the rolling window ending at `t`. -/
def inWindowOf (t s : Nat) : Bool :=
  s ≤ t && t < s + signupWindowMs

/-- Modelled from the spec: the rate-limiter semantics live in the external
`express-rate-limit` package, not in this repository; per the spec the
limiter keeps process-local per-IP counters over a rolling 1-hour window
and accepts at most `signupMax` submissions per window.  `past` is the
list of previously accepted submission times for one source IP; a request
at time `t` is allowed when fewer than `signupMax` accepted times lie in
the rolling window ending at `t`. -/
def rlAllows (past : List Nat) (t : Nat) : Bool :=
  (past.filter (inWindowOf t)).length < signupMax

/-- One request through the rate-limited signup route: the limiter runs
before the handler, so a rejected request produces the configured 429 body,
touches the datastore not at all, and leaves the limiter state unchanged. -/
def signupSubmission (past : List Nat) (t : Nat) (dbCheck : List SignupRec)
    (insertResult : Except DbError SignupRec) (body : SignupBody) :
    ApiResponse × List DbOp × List Nat :=
  if rlAllows past t then
    let (resp, ops) := signupHandler dbCheck insertResult body
    (resp, ops, t :: past)
  else (tooManyRequestsResp, [], past)

/-- The accepted-times state after one source IP has issued requests at
the given times (oldest first), starting from state `past`. -/
def rlRun (past : List Nat) : List Nat → List Nat
  | [] => past
  | t :: ts => rlRun (if rlAllows past t then t :: past else past) ts

/-! ### Admin status update, logout, activity heartbeat -/

/-- `validStatuses` from `PATCH /signups/:id/status`. -/
def validStatuses : List String :=
  ["pending", "contacted", "enrolled", "inactive", "completed"]

def adminNotConfiguredResp : ApiResponse :=
  { status := 503, error := some "Admin access not configured" }

def invalidStatusResp : ApiResponse :=
  { status := 400, error := some "Invalid status", validStatuses := some validStatuses }

/-- `PATCH /api/fatherhood/signups/:id/status` (after the auth middleware).
`updResult` is what the datastore returns for the `update` when one is
issued; an error there is thrown and caught, producing the 500 response. -/
def updateSignupStatus (hasAdmin : Bool) (updResult : Except DbError SignupRec)
    (id : String) (status : Option String) : ApiResponse × List DbOp :=
  if !hasAdmin then (adminNotConfiguredResp, [])
  else if !(match status with
            | some s => validStatuses.contains s
            | none => false) then
    (invalidStatusResp, [])
  else
    match updResult with
    | Except.error _ =>
      ({ status := 500, error := some "Failed to update status" }, [DbOp.signupUpdate id])
    | Except.ok r =>
      ({ status := 200, success := true, data := some r }, [DbOp.signupUpdate id])

/-- `POST /api/auth/logout` (after the auth middleware).  The activity
`update` is issued only when the admin client exists and the token carried
an id; its result `updError` is never inspected, and the catch branch
returns the same success body. -/
def logout (hasAdmin : Bool) (updError : Option DbError) (userId : Option Nat) :
    ApiResponse × List DbOp :=
  let ops := match userId with
    | some uid => if hasAdmin then [DbOp.adminUpdate uid] else []
    | none => []
  ({ status := 200, success := true, message := some "Logged out successfully" }, ops)

/-- `POST /api/auth/update-activity` (after the auth middleware); same
shape as `logout` but with a bare `{ success: true }` body. -/
def updateActivity (hasAdmin : Bool) (updError : Option DbError) (userId : Option Nat) :
    ApiResponse × List DbOp :=
  let ops := match userId with
    | some uid => if hasAdmin then [DbOp.adminUpdate uid] else []
    | none => []
  ({ status := 200, success := true }, ops)

/-! ### Authentication middleware (`src/middleware/auth.js`)

The `Authorization` header is modelled as a list of characters so that
`authHeader.split(' ')` can be embedded as structural recursion. -/

/-- JavaScript `String.prototype.split(' ')`: splits at every single space
character, keeping empty components. -/
def splitOnSpace : List Char → List (List Char)
  | [] => [[]]
  | c :: rest =>
    if c = ' ' then [] :: splitOnSpace rest
    else
      match splitOnSpace rest with
      | [] => [[c]]
      | p :: ps => (c :: p) :: ps

/-- Outcome of `jwt.verify(token, secret)`: decoded claims, or one of the
error classes the middleware distinguishes by `error.name`. -/
inductive VerifyResult where
  | ok (id : Nat) (email : String) (name : String)
  | expired
  | malformed
  | other
  deriving Repr, DecidableEq

/-- What the middleware does with the request: reject with a response, or
attach `{id, email, name}` and call `next()`. -/
inductive AuthOutcome where
  | reject (resp : ApiResponse)
  | proceed (id : Nat) (email : String) (name : String)
  deriving Repr, DecidableEq

def missingTokenResp : ApiResponse :=
  { status := 401, error := some "Unauthorized",
    message := some "No authentication token provided" }

def expiredTokenResp : ApiResponse :=
  { status := 401, error := some "Unauthorized",
    message := some "Token has expired. Please log in again." }

def invalidTokenResp : ApiResponse :=
  { status := 401, error := some "Unauthorized", message := some "Invalid token" }

def verifyFailedResp : ApiResponse :=
  { status := 500, error := some "Authentication error",
    message := some "Failed to verify authentication token" }

/-- The part of the middleware from the `if (!token)` check onwards,
applied to the extracted (possibly absent) token. -/
def checkToken (hasSecret : Bool) (verify : List Char → VerifyResult)
    (token : Option (List Char)) : AuthOutcome :=
  match token with
  | none => AuthOutcome.reject missingTokenResp
  | some t =>
    if t.isEmpty then AuthOutcome.reject missingTokenResp
    else if !hasSecret then AuthOutcome.reject serverConfigErrorResp
    else
      match verify t with
      | VerifyResult.ok i e n => AuthOutcome.proceed i e n
      | VerifyResult.expired => AuthOutcome.reject expiredTokenResp
      | VerifyResult.malformed => AuthOutcome.reject invalidTokenResp
      | VerifyResult.other => AuthOutcome.reject verifyFailedResp

/-- `authenticateToken`: the token is
`authHeader && authHeader.split(' ')[1]`, and a falsy token (absent
header, no second component, or empty second component) is rejected as
missing. -/
def authenticateToken (hasSecret : Bool) (verify : List Char → VerifyResult)
    (authHeader : Option (List Char)) : AuthOutcome :=
  checkToken hasSecret verify (authHeader.bind (fun h => (splitOnSpace h).get? 1))

/-- The claim's reading of the header: its whitespace-separated components
(splitting on runs of whitespace, discarding empties).  Stated from the
claim's words, for comparison with the source's `split(' ')`. -/
def wsComponents (h : List Char) : List (List Char) :=
  (h.splitOnP (fun c => c.isWhitespace)).filter (fun p => !p.isEmpty)

/-! ### Concrete fixtures used by witnesses and counterexamples -/

def adminActiveHashed : AdminUser :=
  { id := 1, email := "amy@x.com", name := "Amy", password_hash := some "H",
    is_active := true, first_login := false }

def adminActiveNoHash : AdminUser :=
  { id := 2, email := "nora@x.com", name := "Nora", password_hash := none,
    is_active := true, first_login := true }

def adminDisabledNoHash : AdminUser :=
  { id := 3, email := "dana@x.com", name := "Dana", password_hash := none,
    is_active := false, first_login := true }

def adminDisabledHashed : AdminUser :=
  { id := 4, email := "drew@x.com", name := "Drew", password_hash := some "H",
    is_active := false, first_login := false }

def cfgFix : AuthConfig := { hasSupabaseAdmin := true, jwtSecret := some "secret" }

def envFix : AuthEnv :=
  { compare := fun p h => p == "pw" && h == "H", sign := fun _ _ _ _ => "token" }

/-! ### C1: enumeration resistance of login -/

/-- C1: a login whose email resolves to no administrator and a login whose
email resolves to an active, hashed administrator but whose password fails
bcrypt verification produce the very same response value: status 401,
error `Invalid credentials`, message `Invalid email or password`. -/
theorem login_enumeration_resistance
    (cfg : AuthConfig) (env : AuthEnv) (db : List AdminUser) (upd : Option DbError)
    (email password : Option String)
    (hemail : falsy email = false) (hpw : falsy password = false)
    (hadmin : cfg.hasSupabaseAdmin = true) :
    (findAdminByEmail db (lowerStr (trimStr (email.getD ""))) = none →
      (login cfg env db upd email password).1 = invalidCredentialsResp) ∧
    (∀ u hash, findAdminByEmail db (lowerStr (trimStr (email.getD ""))) = some u →
      u.is_active = true → u.password_hash = some hash →
      env.compare (password.getD "") hash = false →
      (login cfg env db upd email password).1 = invalidCredentialsResp) ∧
    invalidCredentialsResp.status = 401 ∧
    invalidCredentialsResp.error = some "Invalid credentials" ∧
    invalidCredentialsResp.message = some "Invalid email or password" := by
  refine ⟨?_, ?_, rfl, rfl, rfl⟩
  · intro hfind
    simp [login, hemail, hpw, hadmin, hfind]
  · intro u hash hfind hact hhash hcmp
    simp [login, hemail, hpw, hadmin, hfind, hact, hhash, hcmp]

/-- C1 witness: with one stored administrator, an unknown email and a known
email with a wrong password both yield exactly `invalidCredentialsResp`. -/
theorem login_enumeration_resistance_witness :
    (login cfgFix envFix [adminActiveHashed] none (some "ghost@x.com") (some "pw")).1
      = invalidCredentialsResp ∧
    (login cfgFix envFix [adminActiveHashed] none (some "amy@x.com") (some "bad")).1
      = invalidCredentialsResp := by
  constructor
  · exact (login_enumeration_resistance cfgFix envFix [adminActiveHashed] none
      (some "ghost@x.com") (some "pw") (by decide) (by decide) (by decide)).1 (by decide)
  · exact (login_enumeration_resistance cfgFix envFix [adminActiveHashed] none
      (some "amy@x.com") (some "bad") (by decide) (by decide) (by decide)).2.1
      adminActiveHashed "H" (by decide) (by decide) (by decide) (by decide)

/-! ### C2: null password hash forces the password-setup outcome -/

/-- C2 (amended): for a login request that reaches credential checks and
resolves to an administrator with a null password hash: when the account
is active, the response is the `Password not set` body with
`requiresPasswordSetup: true` and no token; and whatever the active flag,
no token is ever returned. -/
theorem login_null_hash_password_not_set
    (cfg : AuthConfig) (env : AuthEnv) (db : List AdminUser) (upd : Option DbError)
    (email password : Option String) (u : AdminUser)
    (hemail : falsy email = false) (hpw : falsy password = false)
    (hadmin : cfg.hasSupabaseAdmin = true)
    (hfind : findAdminByEmail db (lowerStr (trimStr (email.getD ""))) = some u)
    (hhash : u.password_hash = none) :
    (u.is_active = true →
      (login cfg env db upd email password).1 = passwordNotSetResp u ∧
      (passwordNotSetResp u).requiresPasswordSetup = true ∧
      (passwordNotSetResp u).status = 403 ∧
      (passwordNotSetResp u).token = none) ∧
    (login cfg env db upd email password).1.token = none := by
  constructor
  · intro hact
    refine ⟨?_, rfl, rfl, rfl⟩
    simp [login, hemail, hpw, hadmin, hfind, hact, hhash]
  · cases hact : u.is_active
    · simp [login, hemail, hpw, hadmin, hfind, hact, accountDisabledResp]
    · simp [login, hemail, hpw, hadmin, hfind, hact, hhash, passwordNotSetResp]

/-- C2 witness: an active administrator with no stored hash receives the
password-setup response and no token. -/
theorem login_null_hash_password_not_set_witness :
    (login cfgFix envFix [adminActiveNoHash] none (some "nora@x.com") (some "pw")).1
      = passwordNotSetResp adminActiveNoHash ∧
    (login cfgFix envFix [adminActiveNoHash] none (some "nora@x.com") (some "pw")).1.token
      = none := by
  have h := login_null_hash_password_not_set cfgFix envFix [adminActiveNoHash] none
    (some "nora@x.com") (some "pw") adminActiveNoHash
    (by decide) (by decide) (by decide) (by decide) (by decide)
  exact ⟨(h.1 (by decide)).1, h.2⟩

/-- C2 counterexample: an administrator whose password hash is null but
whose account is disabled does not get the `Password not set` outcome —
login answers `Account disabled` with `requiresPasswordSetup` absent. -/
theorem login_null_hash_disabled_counterexample :
    (login cfgFix envFix [adminDisabledNoHash] none (some "dana@x.com") (some "pw")).1
      = accountDisabledResp ∧
    (login cfgFix envFix [adminDisabledNoHash] none (some "dana@x.com") (some "pw")).1.error
      ≠ some "Password not set" ∧
    (login cfgFix envFix [adminDisabledNoHash] none (some "dana@x.com") (some "pw")).1.requiresPasswordSetup
      = false := by
  decide

/-! ### C3: disabled accounts -/

/-- C3 (amended): for a request resolving to a disabled administrator,
login answers `Account disabled` (403) for every present password —
correct or not — and setup-password answers `Account disabled` (403) for
every password that meets the strength requirements, correct or not.
(A password failing the strength rule is rejected 400 by setup-password
before the account is even looked up, so the disabled check never runs.) -/
theorem disabled_account_rejected
    (cfg : AuthConfig) (env : AuthEnv) (db : List AdminUser)
    (upd e1 e2 : Option DbError) (email : Option String) (pw : String) (u : AdminUser)
    (hemail : falsy email = false)
    (hadmin : cfg.hasSupabaseAdmin = true)
    (hfind : findAdminByEmail db (lowerStr (trimStr (email.getD ""))) = some u)
    (hinact : u.is_active = false) :
    (pw ≠ "" → (login cfg env db upd email (some pw)).1 = accountDisabledResp) ∧
    (passwordRegexTest pw = true →
      (setupPassword cfg env db e1 e2 email (some pw)).1 = accountDisabledResp) ∧
    accountDisabledResp.status = 403 := by
  have hdata : pw ≠ "" → falsy (some pw) = false := by
    intro hne
    cases hd : pw.data with
    | nil =>
      have h0 : String.data "" = [] := rfl
      exact absurd (String.ext (hd.trans h0.symm)) hne
    | cons c l => simp [falsy, hd]
  refine ⟨?_, ?_, rfl⟩
  · intro hne
    simp [login, hemail, hdata hne, hadmin, hfind, hinact]
  · intro hreg
    have hne : pw ≠ "" := by
      intro h
      rw [h] at hreg
      exact absurd hreg (by decide)
    simp [setupPassword, hemail, hdata hne, hreg, hadmin, hfind, hinact]

/-- C3 witness: a disabled administrator gets `Account disabled` from
login with a wrong password and from setup-password with a strong
password. -/
theorem disabled_account_rejected_witness :
    (login cfgFix envFix [adminDisabledHashed] none (some "drew@x.com") (some "bad")).1
      = accountDisabledResp ∧
    (setupPassword cfgFix envFix [adminDisabledHashed] none none
      (some "drew@x.com") (some "Abcdef12")).1 = accountDisabledResp := by
  have h := disabled_account_rejected cfgFix envFix [adminDisabledHashed] none none none
    (some "drew@x.com") "bad" adminDisabledHashed (by decide) (by decide) (by decide) (by decide)
  have h2 := disabled_account_rejected cfgFix envFix [adminDisabledHashed] none none none
    (some "drew@x.com") "Abcdef12" adminDisabledHashed (by decide) (by decide) (by decide) (by decide)
  exact ⟨h.1 (by decide), h2.2.1 (by decide)⟩

/-- C3 counterexample: a disabled administrator supplied with the password
`"x"` is not answered `Account disabled` by setup-password — the strength
rule rejects the request 400 first, so the claimed "regardless of what the
password contains" fails. -/
theorem disabled_account_weak_password_counterexample :
    (setupPassword cfgFix envFix [adminDisabledHashed] none none
      (some "drew@x.com") (some "x")).1 = passwordRequirementsResp ∧
    (setupPassword cfgFix envFix [adminDisabledHashed] none none
      (some "drew@x.com") (some "x")).1.status = 400 ∧
    (setupPassword cfgFix envFix [adminDisabledHashed] none none
      (some "drew@x.com") (some "x")).1 ≠ accountDisabledResp := by
  decide

/-! ### C5: the post-login timestamp update is best-effort -/

/-- C5: once credential verification and token issuance succeed, the login
response does not depend on the outcome of the timestamp update — a failed
update yields the identical 200 response carrying the issued token. -/
theorem login_update_best_effort
    (cfg : AuthConfig) (env : AuthEnv) (db : List AdminUser)
    (e1 e2 : Option DbError) (email password : Option String)
    (u : AdminUser) (hash secret : String)
    (hemail : falsy email = false) (hpw : falsy password = false)
    (hadmin : cfg.hasSupabaseAdmin = true)
    (hfind : findAdminByEmail db (lowerStr (trimStr (email.getD ""))) = some u)
    (hact : u.is_active = true) (hhash : u.password_hash = some hash)
    (hcmp : env.compare (password.getD "") hash = true)
    (hsec : cfg.jwtSecret = some secret) :
    login cfg env db e1 email password = login cfg env db e2 email password ∧
    (login cfg env db e1 email password).1.status = 200 ∧
    (login cfg env db e1 email password).1.success = true ∧
    (login cfg env db e1 email password).1.token
      = some (env.sign u.id u.email u.name secret) := by
  refine ⟨rfl, ?_, ?_, ?_⟩ <;>
    simp [login, hemail, hpw, hadmin, hfind, hact, hhash, hcmp, hsec]

/-- C5 witness: a successful login returns 200 with the signed token, and
the response is the same whether the timestamp update failed or not. -/
theorem login_update_best_effort_witness :
    login cfgFix envFix [adminActiveHashed] (some { code := "57014" })
        (some "amy@x.com") (some "pw")
      = login cfgFix envFix [adminActiveHashed] none (some "amy@x.com") (some "pw") ∧
    (login cfgFix envFix [adminActiveHashed] (some { code := "57014" })
        (some "amy@x.com") (some "pw")).1.status = 200 := by
  have h := login_update_best_effort cfgFix envFix [adminActiveHashed]
    (some { code := "57014" }) none (some "amy@x.com") (some "pw")
    adminActiveHashed "H" "secret" (by decide) (by decide) (by decide) (by decide)
    (by decide) (by decide) (by decide) (by decide)
  exact ⟨h.1, h.2.1⟩

/-! ### C6: weak setup-password requests never touch the datastore -/

/-- C6: a setup-password request whose password fails the strength rule
(or is absent) is answered 400 and issues no datastore operation at all —
no administrator row is read or written. -/
theorem setup_weak_password_no_datastore
    (cfg : AuthConfig) (env : AuthEnv) (db : List AdminUser)
    (e1 e2 : Option DbError) (email pw : Option String)
    (hweak : (match pw with
              | some s => passwordRegexTest s
              | none => false) = false) :
    (setupPassword cfg env db e1 e2 email pw).1.status = 400 ∧
    (setupPassword cfg env db e1 e2 email pw).2 = [] := by
  match pw with
  | none => simp [setupPassword, falsy, validationFailedResp]
  | some s =>
    have hreg : passwordRegexTest s = false := hweak
    cases hf : falsy email || falsy (some s) with
    | true => simp [setupPassword, hf, validationFailedResp]
    | false => simp [setupPassword, hf, hreg, passwordRequirementsResp]

/-- C6 witness: the spec's example password `"alllower1"` (no uppercase)
is rejected 400 with no datastore operation. -/
theorem setup_weak_password_no_datastore_witness :
    (setupPassword cfgFix envFix [adminActiveHashed] none none
      (some "amy@x.com") (some "alllower1")).1.status = 400 ∧
    (setupPassword cfgFix envFix [adminActiveHashed] none none
      (some "amy@x.com") (some "alllower1")).2 = [] :=
  setup_weak_password_no_datastore cfgFix envFix [adminActiveHashed] none none
    (some "amy@x.com") (some "alllower1") (by decide)

/-! ### C7: invalid status values leave the record untouched -/

/-- C7: with the admin client configured, a status-update request whose
status is not one of the five valid values is answered 400 with the valid
set echoed, and no datastore update is issued. -/
theorem update_status_invalid_rejected
    (updResult : Except DbError SignupRec) (id : String) (status : Option String)
    (hstat : (match status with
              | some s => validStatuses.contains s
              | none => false) = false) :
    (updateSignupStatus true updResult id status).1 = invalidStatusResp ∧
    invalidStatusResp.status = 400 ∧
    invalidStatusResp.validStatuses = some validStatuses ∧
    (updateSignupStatus true updResult id status).2 = [] := by
  refine ⟨?_, rfl, rfl, ?_⟩ <;>
    simp only [updateSignupStatus, hstat, Bool.not_true, Bool.not_false,
      if_false, if_true, ite_true, ite_false] <;> rfl

/-- C7 witness: the spec's example status `"archived"` is rejected 400
with the valid set echoed and no update issued. -/
theorem update_status_invalid_rejected_witness :
    (updateSignupStatus true (Except.error { code := "0" }) "17" (some "archived")).1
      = invalidStatusResp ∧
    (updateSignupStatus true (Except.error { code := "0" }) "17" (some "archived")).2
      = [] := by
  have h := update_status_invalid_rejected (Except.error { code := "0" }) "17"
    (some "archived") (by decide)
  exact ⟨h.1, h.2.2.2⟩

/-! ### C9: logout and update-activity always report success -/

/-- C9: logout and update-activity answer `success: true` whatever the
outcome of the activity update and whether or not the privileged client
exists; a failed update is indistinguishable from a successful one. -/
theorem logout_update_activity_always_success
    (hasAdmin : Bool) (e1 e2 : Option DbError) (uid : Option Nat) :
    (logout hasAdmin e1 uid).1
      = { status := 200, success := true, message := some "Logged out successfully" } ∧
    logout hasAdmin e1 uid = logout hasAdmin e2 uid ∧
    (updateActivity hasAdmin e1 uid).1 = { status := 200, success := true } ∧
    updateActivity hasAdmin e1 uid = updateActivity hasAdmin e2 uid ∧
    (logout false e1 uid).1.success = true ∧
    (updateActivity false e1 uid).1.success = true :=
  ⟨rfl, rfl, rfl, rfl, rfl, rfl⟩

/-! ### C4: duplicate signup emails are 409 via either guard -/

/-- C4: a public signup whose email is already stored is answered 409
`Email already registered` both when the pre-insert check finds the row
and when the insert surfaces the unique-constraint code 23505 — the
datastore being the authoritative guard — and a constraint violation is
never turned into a generic 500. -/
theorem signup_duplicate_email_409
    (dbCheck dbIns : List SignupRec) (body : SignupBody) :
    (∀ r, findExistingSignup dbCheck body.email = some r →
      ∀ ins, (signupHandler dbCheck ins body).1 = duplicatePrecheckResp) ∧
    (∀ e : DbError, findExistingSignup dbCheck body.email = none → e.code = "23505" →
      (signupHandler dbCheck (Except.error e) body).1 = duplicateConstraintResp) ∧
    (findExistingSignup dbCheck body.email = none →
      dbIns.any (fun x => lowerStr x.email == lowerStr (mkSignupRecord body).email) = true →
      (signupHandler dbCheck (dbInsertOutcome dbIns (mkSignupRecord body)) body).1
        = duplicateConstraintResp) ∧
    duplicatePrecheckResp.status = 409 ∧
    duplicateConstraintResp.status = 409 ∧
    duplicatePrecheckResp.error = some "Email already registered" ∧
    duplicateConstraintResp.error = some "Email already registered" ∧
    (∀ e : DbError, e.code = "23505" →
      ∀ ins, ins = Except.error e → (signupHandler dbCheck ins body).1.status ≠ 500) := by
  refine ⟨?_, ?_, ?_, rfl, rfl, rfl, rfl, ?_⟩
  · intro r hfind ins
    simp [signupHandler, hfind]
  · intro e hfind hcode
    simp [signupHandler, hfind, hcode]
  · intro hfind hdup
    simp [signupHandler, hfind, dbInsertOutcome, hdup]
  · intro e hcode ins hins
    subst hins
    cases hfind : findExistingSignup dbCheck body.email with
    | some r => simp [signupHandler, hfind, duplicatePrecheckResp]
    | none => simp [signupHandler, hfind, hcode, duplicateConstraintResp]

def bobRec : SignupRec :=
  { full_name := "Bob", email := "bob@x.com", phone_number := "555-0100" }

def bobBody : SignupBody :=
  { full_name := "Robert", email := "BOB@x.com", phone_number := "555-0101" }

/-- C4 witness: the same already-stored email yields 409 through the
pre-check and, on a fresh pre-check snapshot, through the datastore's
constraint-violation outcome. -/
theorem signup_duplicate_email_409_witness :
    (signupHandler [bobRec] (Except.error { code := "23505" }) bobBody).1
      = duplicatePrecheckResp ∧
    (signupHandler [] (dbInsertOutcome [bobRec] (mkSignupRecord bobBody)) bobBody).1
      = duplicateConstraintResp ∧
    (signupHandler [] (Except.error { code := "23505" }) bobBody).1.status ≠ 500 := by
  have h1 := signup_duplicate_email_409 [bobRec] [bobRec] bobBody
  have h2 := signup_duplicate_email_409 [] [bobRec] bobBody
  exact ⟨h1.1 bobRec (by decide) _,
    (h2.2.2.1 (by decide) (by decide)),
    h2.2.2.2.2.2.2.2 { code := "23505" } rfl _ rfl⟩

/-! ### C8: the signup rate limiter -/

/-- Filter-length is monotone under pointwise implication of predicates. -/
theorem length_filter_le_of_imp (l : List Nat) (p q : Nat → Bool)
    (h : ∀ a ∈ l, p a = true → q a = true) :
    (l.filter p).length ≤ (l.filter q).length := by
  induction l with
  | nil => simp
  | cons a l ih =>
    have ht : ∀ b ∈ l, p b = true → q b = true := fun b hb => h b (List.mem_cons_of_mem a hb)
    cases hp : p a with
    | false =>
      cases hq : q a with
      | false => simpa [List.filter, hp, hq] using ih ht
      | true =>
        simp only [List.filter, hp, hq, List.length_cons]
        exact Nat.le_succ_of_le (ih ht)
    | true =>
      have hq : q a = true := h a (List.mem_cons_self a l) hp
      simpa [List.filter, hp, hq] using ih ht

/-- Membership of accepted time `s` in the fixed span `[t0, t0 + window)`. -/
def inSpan (t0 s : Nat) : Bool :=
  t0 ≤ s && s < t0 + signupWindowMs

/-- Invariant carried along a run of the limiter: if every window already
holds at most `signupMax` accepted times and all accepted times precede
the (sorted) remaining request times, the bound persists. -/
theorem rlRun_bound_aux (ts : List Nat) :
    ∀ past : List Nat, List.Sorted (· ≤ ·) ts →
    (∀ s ∈ past, ∀ t ∈ ts, s ≤ t) →
    (∀ t0, ((past.filter (inSpan t0)).length ≤ signupMax)) →
    ∀ t0, (((rlRun past ts).filter (inSpan t0)).length ≤ signupMax) := by
  induction ts with
  | nil => intro past _ _ hbound; exact hbound
  | cons t ts ih =>
    intro past hsorted hple hbound
    have hsorted' : List.Sorted (· ≤ ·) ts := (List.sorted_cons.mp hsorted).2
    have hhead : ∀ x ∈ ts, t ≤ x := (List.sorted_cons.mp hsorted).1
    cases hall : rlAllows past t with
    | false =>
      have hrun : rlRun past (t :: ts) = rlRun past ts := by simp [rlRun, hall]
      rw [hrun]
      exact ih past hsorted' (fun s hs t' ht' => hple s hs t' (List.mem_cons_of_mem t ht'))
        hbound
    | true =>
      have hrun : rlRun past (t :: ts) = rlRun (t :: past) ts := by simp [rlRun, hall]
      rw [hrun]
      refine ih (t :: past) hsorted' ?_ ?_
      · intro s hs t' ht'
        rcases List.mem_cons.mp hs with h | h
        · exact h ▸ hhead t' ht'
        · exact hple s h t' (List.mem_cons_of_mem t ht')
      · intro t0
        cases hw : inSpan t0 t with
        | false => simpa [List.filter, hw] using hbound t0
        | true =>
          have hcount : (past.filter (inWindowOf t)).length < signupMax := by
            have := hall
            simpa [rlAllows] using this
          have hmono : (past.filter (inSpan t0)).length
              ≤ (past.filter (inWindowOf t)).length := by
            refine length_filter_le_of_imp past _ _ ?_
            intro s hs hspan
            have h1 : t0 ≤ s ∧ s < t0 + signupWindowMs := by
              simpa [inSpan] using hspan
            have h2 : t0 ≤ t ∧ t < t0 + signupWindowMs := by
              simpa [inSpan] using hw
            have hst : s ≤ t := hple s hs t (List.mem_cons_self t ts)
            have : t < s + signupWindowMs := by omega
            simp [inWindowOf, hst, this]
          simp only [List.filter, hw, List.length_cons]
          omega

/-- C8: from any starting state, a request arriving when `signupMax`
accepted submissions already sit in its rolling window is answered the
configured 429 body with no datastore operation and no state change; and
along any run of time-ordered requests, every span of one window length
retains at most `signupMax` accepted submissions. -/
theorem signup_rate_limited :
    (∀ ts, List.Sorted (· ≤ ·) ts →
      ∀ t0, (((rlRun [] ts).filter (inSpan t0)).length ≤ signupMax)) ∧
    (∀ past t dbCheck ins body, signupMax ≤ (past.filter (inWindowOf t)).length →
      signupSubmission past t dbCheck ins body = (tooManyRequestsResp, [], past)) ∧
    tooManyRequestsResp.status = 429 ∧
    tooManyRequestsResp.error = some "Too many signup attempts" ∧
    tooManyRequestsResp.message
      = some "Too many signup attempts from this IP, please try again later." := by
  refine ⟨?_, ?_, rfl, rfl, rfl⟩
  · intro ts hsorted t0
    exact rlRun_bound_aux ts [] hsorted (by simp) (by simp) t0
  · intro past t dbCheck ins body hfull
    have hall : rlAllows past t = false := by
      simp [rlAllows]
      omega
    simp [signupSubmission, hall]

/-- C8 witness: six submissions at one-minute intervals from a fresh
state leave five accepted; with five accepted inside the window, the
sixth request is answered 429 with no datastore operation. -/
theorem signup_rate_limited_witness :
    ((rlRun [] [0, 60000, 120000, 180000, 240000, 300000]).filter (inSpan 0)).length
      ≤ signupMax ∧
    signupSubmission [240000, 180000, 120000, 60000, 0] 300000 []
        (Except.ok bobRec) bobBody
      = (tooManyRequestsResp, [], [240000, 180000, 120000, 60000, 0]) := by
  constructor
  · exact (signup_rate_limited.1) [0, 60000, 120000, 180000, 240000, 300000]
      (by decide) 0
  · exact (signup_rate_limited.2.1) [240000, 180000, 120000, 60000, 0] 300000 []
      (Except.ok bobRec) bobBody (by decide)

/-! ### C10: the middleware's token extraction -/

/-- A chunk with no space character is returned whole by `split(' ')`. -/
theorem splitOnSpace_no_space (l : List Char) (h : ' ' ∉ l) :
    splitOnSpace l = [l] := by
  induction l with
  | nil => rfl
  | cons c rest ih =>
    have hc : c ≠ ' ' := fun hcc => h (hcc ▸ List.mem_cons_self c rest)
    have hr : ' ' ∉ rest := fun hm => h (List.mem_cons_of_mem c hm)
    simp [splitOnSpace, hc, ih hr]

/-- `split(' ')` peels off a space-free first chunk. -/
theorem splitOnSpace_append (s t : List Char) (h : ' ' ∉ s) :
    splitOnSpace (s ++ ' ' :: t) = s :: splitOnSpace t := by
  induction s with
  | nil => simp [splitOnSpace]
  | cons c s ih =>
    have hc : c ≠ ' ' := fun hcc => h (hcc ▸ List.mem_cons_self c s)
    have hs : ' ' ∉ s := fun hm => h (List.mem_cons_of_mem c hm)
    rw [List.cons_append]
    simp only [splitOnSpace, if_neg hc, ih hs]

/-- C10 (amended): the middleware takes the second component of the
`Authorization` header under a split at single space characters — so a
header `scheme SP token` has exactly its `token` part verified whatever
the scheme word is — and a header with no such second component (absent
header, bare token without a scheme, no second chunk) is rejected 401 as
a missing token. -/
theorem authenticate_token_extraction
    (hs : Bool) (verify : List Char → VerifyResult) (scheme tok h : List Char)
    (hscheme : ' ' ∉ scheme) (htok : ' ' ∉ tok) :
    authenticateToken hs verify (some (scheme ++ ' ' :: tok))
      = checkToken hs verify (some tok) ∧
    ((splitOnSpace h).get? 1 = none →
      authenticateToken hs verify (some h) = AuthOutcome.reject missingTokenResp) ∧
    (' ' ∉ h → authenticateToken hs verify (some h) = AuthOutcome.reject missingTokenResp) ∧
    authenticateToken hs verify none = AuthOutcome.reject missingTokenResp ∧
    ((splitOnSpace h).get? 1 = some [] →
      authenticateToken hs verify (some h) = AuthOutcome.reject missingTokenResp) ∧
    missingTokenResp.status = 401 ∧
    missingTokenResp.message = some "No authentication token provided" := by
  refine ⟨?_, ?_, ?_, rfl, ?_, rfl, rfl⟩
  · simp [authenticateToken, splitOnSpace_append scheme tok hscheme,
      splitOnSpace_no_space tok htok]
  · intro hnone
    rw [List.get?_eq_getElem?] at hnone
    simp [authenticateToken, checkToken, hnone]
  · intro hno
    simp [authenticateToken, splitOnSpace_no_space h hno, checkToken]
  · intro hemp
    rw [List.get?_eq_getElem?] at hemp
    simp [authenticateToken, checkToken, hemp]

/-- C10 witness: a `Basic`-scheme header still has its second
space-separated component verified (here successfully), and a bare token
without a scheme is rejected as missing. -/
theorem authenticate_token_extraction_witness :
    authenticateToken true (fun _ => VerifyResult.ok 7 "amy@x.com" "Amy")
        (some ("Basic abc".toList))
      = checkToken true (fun _ => VerifyResult.ok 7 "amy@x.com" "Amy")
        (some ("abc".toList)) ∧
    authenticateToken true (fun _ => VerifyResult.ok 7 "amy@x.com" "Amy")
        (some ("abc".toList))
      = AuthOutcome.reject missingTokenResp := by
  have h := authenticate_token_extraction true
    (fun _ => VerifyResult.ok 7 "amy@x.com" "Amy")
    ("Basic".toList) ("abc".toList) ("abc".toList) (by decide) (by decide)
  exact ⟨h.1, h.2.2.1 (by decide)⟩

/-- C10 counterexample: the header `Bearer<TAB>abc` has the second
whitespace-separated component `abc`, and its token even verifies, yet
the middleware rejects the request as carrying no token — so the
extraction is not whitespace-based. -/
theorem authenticate_token_tab_counterexample :
    (wsComponents ("Bearer\tabc".toList)).get? 1 = some ("abc".toList) ∧
    authenticateToken true (fun _ => VerifyResult.ok 7 "amy@x.com" "Amy")
        (some ("Bearer\tabc".toList))
      = AuthOutcome.reject missingTokenResp ∧
    checkToken true (fun _ => VerifyResult.ok 7 "amy@x.com" "Amy")
        (some ("abc".toList))
      = AuthOutcome.proceed 7 "amy@x.com" "Amy" := by
  refine ⟨by decide, by decide, by decide⟩

end Express2
